import Mathlib

/-!
Shallow embedding of `src/BlackBone/DriverControl/DriverControl.cpp`
(namespace `blackbone`, class `DriverControl`).

The class is a privileged-channel client: it owns a single control handle
(`_hDriver`, sentinel `INVALID_HANDLE_VALUE` when not loaded) and issues
fixed-layout command records over `DeviceIoControl`.  The embedding models:

* the control handle as a `Nat` with a distinguished sentinel value;
* the device-control channel as an oracle: a list of responses consumed in
  order (`Channel`), standing for the fake/real driver.  Each response
  carries the transport success flag (`BOOL` result of `DeviceIoControl`),
  the `bytesReturned` value and the content the driver wrote into the
  output buffer;
* `LastNtStatus()` (from `Misc/Utils`) as the environment field
  `lastStatus` — the most recent transport error converted to `NTSTATUS`;
  `LastNtStatus(s)` sets and returns `s`, so it is embedded as `s` itself;
* the CRT secure copy `wcscpy_s(dst, src)` per its documented semantics:
  if the source (plus terminator) fits the destination capacity it copies
  it unchanged, otherwise the invalid-parameter constraint handler runs
  and the call does not complete normally — embedded as `Option`, `none`
  on constraint violation;
* each operation's outcome as a record holding the returned `NTSTATUS`,
  the requests actually issued over the channel, and (for `MapMemory`)
  the output-buffer sizes passed to `DeviceIoControl` plus the
  `malloc`/`free` events of the dynamically sized result buffer.
-/

namespace blackbone

/-- The `NTSTATUS`, embedded as the unsigned 32-bit value. -/
abbrev NTSTATUS := Nat

def STATUS_SUCCESS : NTSTATUS := 0

/-- The `STATUS_DEVICE_DOES_NOT_EXIST`: the Not-Loaded status. -/
def STATUS_DEVICE_DOES_NOT_EXIST : NTSTATUS := 0xC00000C0

/-- The `NT_SUCCESS(s)`: the signed 32-bit value is non-negative. -/
def NT_SUCCESS (s : NTSTATUS) : Bool := s < 0x80000000

/-- OS handles, embedded as `Nat` (the numeric handle value). -/
abbrev Handle := Nat

/-- The `INVALID_HANDLE_VALUE` (`(HANDLE)-1`), the not-loaded sentinel. -/
def INVALID_HANDLE_VALUE : Handle := 0xFFFFFFFFFFFFFFFF

/-- The `DriverControl` object state relevant to the channel operations:
the `_hDriver` member. -/
structure DrvState where
  hDriver : Handle
deriving DecidableEq

/-! ### Device-control channel oracle -/

/-- Entry of the variable-size `MAP_MEMORY_RESULT` record: original
address, new address and size of one mapped region (fields read at
`DriverControl.cpp:146-148`). -/
structure MapEntry where
  originalPtr : Nat
  newPtr : Nat
  size : Nat
deriving DecidableEq

/-- The variable-size response of `IOCTL_BLACKBONE_MAP_MEMORY` phase 2
(fields read at `DriverControl.cpp:146-152`). -/
structure MAP_MEMORY_RESULT where
  count : Nat
  entries : List MapEntry
  hostPage : Nat
  targetPage : Nat
  pipeHandle : Nat
deriving DecidableEq

/-- Fixed-size response of `IOCTL_BLACKBONE_MAP_REGION`
(fields read at `DriverControl.cpp:186-190`). -/
structure MAP_MEMORY_REGION_RESULT where
  newPtr : Nat
  originalPtr : Nat
  removedPtr : Nat
  removedSize : Nat
  size : Nat
deriving DecidableEq

/-- Fixed-size response of `IOCTL_BLACKBONE_ALLOCATE_FREE_MEMORY`
(fields read at `DriverControl.cpp:349-350`). -/
structure ALLOCATE_FREE_MEMORY_RESULT where
  address : Nat
  size : Nat
deriving DecidableEq

/-- Content the driver wrote into the output buffer of one
`DeviceIoControl` call. -/
inductive IoOut where
  | nothing
  | sizeHint (n : Nat)
  | mapResult (r : MAP_MEMORY_RESULT)
  | regionResult (r : MAP_MEMORY_REGION_RESULT)
  | allocResult (r : ALLOCATE_FREE_MEMORY_RESULT)
deriving DecidableEq

/-- One response of the (fake or real) driver to a `DeviceIoControl`
call: the `BOOL` transport result, `bytesReturned`, and the output
content. -/
structure IoResp where
  ok : Bool
  bytes : Nat
  out : IoOut
deriving DecidableEq

/-- The device-control channel oracle: responses consumed in call order,
plus the value `LastNtStatus()` reads after a transport failure. -/
structure Channel where
  resps : List IoResp
  lastStatus : NTSTATUS
deriving DecidableEq

/-- Response to the `i`-th `DeviceIoControl` call of one operation; an
exhausted oracle behaves as a failing transport. -/
def Channel.respAt (ch : Channel) (i : Nat) : IoResp :=
  ch.resps.getD i ⟨false, 0, IoOut.nothing⟩

/-- Reading a probe output buffer as the `ULONG` size hint; any other
content reads as `0`. -/
def IoOut.asSize : IoOut → Nat
  | IoOut.sizeHint n => n
  | _ => 0

/-- Reading a fetch output buffer as a `MAP_MEMORY_RESULT`; any other
content reads as the zero record. -/
def IoOut.asMapResult : IoOut → MAP_MEMORY_RESULT
  | IoOut.mapResult r => r
  | _ => ⟨0, [], 0, 0, 0⟩

/-- Reading an output buffer as a `MAP_MEMORY_REGION_RESULT`. -/
def IoOut.asRegionResult : IoOut → MAP_MEMORY_REGION_RESULT
  | IoOut.regionResult r => r
  | _ => ⟨0, 0, 0, 0, 0⟩

/-- Reading an output buffer as an `ALLOCATE_FREE_MEMORY_RESULT`. -/
def IoOut.asAllocResult : IoOut → ALLOCATE_FREE_MEMORY_RESULT
  | IoOut.allocResult r => r
  | _ => ⟨0, 0⟩

/-! ### CRT string copy into fixed-capacity record fields -/

/-- The `wcscpy_s` into a destination array of `cap` wide characters: copies
the source unchanged when it fits together with its terminator, otherwise
the invalid-parameter constraint handler is invoked and the call does not
complete normally (`none`).  `wcscpy_s` never truncates. -/
def wcscpy_s (cap : Nat) (src : String) : Option String :=
  if src.length + 1 ≤ cap then some src else none

/-! ### Fixed-layout request records (field lists as populated in the
source; layouts live in the driver's shared header, the embedding keeps
one Lean field per populated C field) -/

/-- The `MAP_MEMORY` request (`DriverControl.cpp:127-137`). -/
structure MAP_MEMORY where
  pid : Nat
  mapSections : Bool
  pipeName : String
deriving DecidableEq

/-- The `MAP_MEMORY_REGION` request (`DriverControl.cpp:180-182`). -/
structure MAP_MEMORY_REGION where
  pid : Nat
  base : Nat
  size : Nat
deriving DecidableEq

/-- The `UNMAP_MEMORY` request (`DriverControl.cpp:205`). -/
structure UNMAP_MEMORY where
  pid : Nat
deriving DecidableEq

/-- The `UNMAP_MEMORY_REGION` request (`DriverControl.cpp:233-235`). -/
structure UNMAP_MEMORY_REGION where
  pid : Nat
  base : Nat
  size : Nat
deriving DecidableEq

/-- The `DISABLE_DEP` request (`DriverControl.cpp:257`). -/
structure DISABLE_DEP where
  pid : Nat
deriving DecidableEq

/-- The `SET_PROC_PROTECTION` request (`DriverControl.cpp:278`). -/
structure SET_PROC_PROTECTION where
  pid : Nat
  enableState : Bool
deriving DecidableEq

/-- The `HANDLE_GRANT_ACCESS` request (`DriverControl.cpp:302-304`). -/
structure HANDLE_GRANT_ACCESS where
  pid : Nat
  handle : Nat
  access : Nat
deriving DecidableEq

/-- The `ALLOCATE_FREE_MEMORY` request (`DriverControl.cpp:331-337` and
`369-374`). -/
structure ALLOCATE_FREE_MEMORY where
  pid : Nat
  base : Nat
  size : Nat
  allocKind : Nat
  protection : Nat
  allocate : Bool
  physical : Bool
deriving DecidableEq

/-- The `COPY_MEMORY` request (`DriverControl.cpp:399-403` and `428-432`). -/
structure COPY_MEMORY where
  pid : Nat
  targetPtr : Nat
  localbuf : Nat
  size : Nat
  write : Bool
deriving DecidableEq

/-- The `PROTECT_MEMORY` request (`DriverControl.cpp:457-460`). -/
structure PROTECT_MEMORY where
  pid : Nat
  base : Nat
  size : Nat
  newProtection : Nat
deriving DecidableEq

/-- The `INJECT_DLL` request (`DriverControl.cpp:500-506`). -/
structure INJECT_DLL where
  FullDllPath : String
  initArg : String
  pid : Nat
  initRVA : Nat
  wait : Bool
  unlink : Bool
  injType : Nat
deriving DecidableEq

/-- The `MMAP_DRIVER` request (`DriverControl.cpp:532`). -/
structure MMAP_DRIVER where
  FullPath : String
deriving DecidableEq

/-- The `HIDE_VAD` request (`DriverControl.cpp:555-557`). -/
structure HIDE_VAD where
  base : Nat
  size : Nat
  pid : Nat
deriving DecidableEq

/-! ### Simple command operations (single round trip, status only) -/

/-- Outcome of a status-only command: the returned status and the
requests actually issued over the channel (empty list = zero
device-control round trips). -/
structure CmdOut (Req : Type) where
  status : NTSTATUS
  sent : List Req
deriving DecidableEq

/-- Common shape of the status-only operations
(`DriverControl.cpp:203-216` and analogues): reject with the Not-Loaded
status when `_hDriver` is the sentinel, otherwise issue the request once
and translate a transport failure through `LastNtStatus()`. -/
def simpleCommand {Req : Type} (st : DrvState) (req : Req) (ch : Channel) : CmdOut Req :=
  if st.hDriver = INVALID_HANDLE_VALUE then
    ⟨STATUS_DEVICE_DOES_NOT_EXIST, []⟩
  else if (ch.respAt 0).ok then
    ⟨STATUS_SUCCESS, [req]⟩
  else
    ⟨ch.lastStatus, [req]⟩

/-- Embeds `DriverControl::UnmapMemory` (`DriverControl.cpp:203-216`). -/
def UnmapMemory (st : DrvState) (pid : Nat) (ch : Channel) : CmdOut UNMAP_MEMORY :=
  simpleCommand st ⟨pid⟩ ch

/-- Embeds `DriverControl::UnmapMemoryRegion` (`DriverControl.cpp:228-245`). -/
def UnmapMemoryRegion (st : DrvState) (pid base size : Nat) (ch : Channel) :
    CmdOut UNMAP_MEMORY_REGION :=
  simpleCommand st ⟨pid, base, size⟩ ch

/-- Embeds `DriverControl::DisableDEP` (`DriverControl.cpp:254-267`). -/
def DisableDEP (st : DrvState) (pid : Nat) (ch : Channel) : CmdOut DISABLE_DEP :=
  simpleCommand st ⟨pid⟩ ch

/-- Embeds `DriverControl::ProtectProcess` (`DriverControl.cpp:275-288`). -/
def ProtectProcess (st : DrvState) (pid : Nat) (enable : Bool) (ch : Channel) :
    CmdOut SET_PROC_PROTECTION :=
  simpleCommand st ⟨pid, enable⟩ ch

/-- Embeds `DriverControl::PromoteHandle` (`DriverControl.cpp:297-314`). -/
def PromoteHandle (st : DrvState) (pid handle access : Nat) (ch : Channel) :
    CmdOut HANDLE_GRANT_ACCESS :=
  simpleCommand st ⟨pid, handle, access⟩ ch

/-- Embeds `DriverControl::FreeMem` (`DriverControl.cpp:363-384`): same record
as allocation with `allocate = FALSE`, `physical = FALSE`; the result
buffer is passed but its content is not read. -/
def FreeMem (st : DrvState) (pid base size freeKind : Nat) (ch : Channel) :
    CmdOut ALLOCATE_FREE_MEMORY :=
  simpleCommand st ⟨pid, base, size, freeKind, 0, false, false⟩ ch

/-- Embeds `DriverControl::ReadMem` (`DriverControl.cpp:394-413`). -/
def ReadMem (st : DrvState) (pid base size buffer : Nat) (ch : Channel) :
    CmdOut COPY_MEMORY :=
  simpleCommand st ⟨pid, base, buffer, size, false⟩ ch

/-- Embeds `DriverControl::WriteMem` (`DriverControl.cpp:423-442`). -/
def WriteMem (st : DrvState) (pid base size buffer : Nat) (ch : Channel) :
    CmdOut COPY_MEMORY :=
  simpleCommand st ⟨pid, base, buffer, size, true⟩ ch

/-- Embeds `DriverControl::ProtectMem` (`DriverControl.cpp:452-470`). -/
def ProtectMem (st : DrvState) (pid base size protection : Nat) (ch : Channel) :
    CmdOut PROTECT_MEMORY :=
  simpleCommand st ⟨pid, base, size, protection⟩ ch

/-- Embeds `DriverControl::ConcealVAD` (`DriverControl.cpp:550-567`). -/
def ConcealVAD (st : DrvState) (pid base size : Nat) (ch : Channel) : CmdOut HIDE_VAD :=
  simpleCommand st ⟨base, size, pid⟩ ch

/-- Embeds `DriverControl::InjectDll` (`DriverControl.cpp:483-512`): the
Not-Loaded check precedes the two `wcscpy_s` calls; `dllCap`/`argCap` are
the capacities of the record's `FullDllPath`/`initArg` arrays (declared
in the driver's shared header).  `none` = a secure-copy constraint
violation aborted the call. -/
def InjectDll (dllCap argCap : Nat) (st : DrvState) (pid : Nat) (path : String)
    (itype : Nat) (initRVA : Nat) (initArg : String) (unlink wait : Bool)
    (ch : Channel) : Option (CmdOut INJECT_DLL) :=
  if st.hDriver = INVALID_HANDLE_VALUE then
    some ⟨STATUS_DEVICE_DOES_NOT_EXIST, []⟩
  else
    match wcscpy_s dllCap path with
    | none => none
    | some p =>
      match wcscpy_s argCap initArg with
      | none => none
      | some a =>
        let req : INJECT_DLL := ⟨p, a, pid, initRVA, wait, unlink, itype⟩
        if (ch.respAt 0).ok then some ⟨STATUS_SUCCESS, [req]⟩
        else some ⟨ch.lastStatus, [req]⟩

/-- The `RtlDosPathNameToNtPathName_U` on an ordinary DOS path: the NT-native
path is the DOS path behind the `\??\` prefix (documented behaviour for
fully qualified paths, which is what `MMapDriver` receives). -/
def ntPathOf (path : String) : String := "\\??\\" ++ path

/-- Embeds `DriverControl::MMapDriver` (`DriverControl.cpp:519-540`): converts
the path to NT-native syntax, copies it into the fixed-capacity
`FullPath` field, then issues the request. -/
def MMapDriver (pathCap : Nat) (st : DrvState) (path : String) (ch : Channel) :
    Option (CmdOut MMAP_DRIVER) :=
  if st.hDriver = INVALID_HANDLE_VALUE then
    some ⟨STATUS_DEVICE_DOES_NOT_EXIST, []⟩
  else
    match wcscpy_s pathCap (ntPathOf path) with
    | none => none
    | some p =>
      if (ch.respAt 0).ok then some ⟨STATUS_SUCCESS, [⟨p⟩]⟩
      else some ⟨ch.lastStatus, [⟨p⟩]⟩

/-! ### Operations with data-carrying results -/

/-- Outcome of `AllocateMem`: the returned status, the final values of
the by-reference `base`/`size` parameters and the requests issued. -/
structure AllocOut where
  status : NTSTATUS
  base : Nat
  size : Nat
  sent : List ALLOCATE_FREE_MEMORY
deriving DecidableEq

/-- Embeds `DriverControl::AllocateMem` (`DriverControl.cpp:325-353`): on the
Not-Loaded path `base`/`size` are returned as passed; on a transport
failure the source executes `size = base = 0` before returning
`LastNtStatus()`; on success they are overwritten from the result
record. -/
def AllocateMem (st : DrvState) (pid base size allocKind protection : Nat)
    (physical : Bool) (ch : Channel) : AllocOut :=
  let req : ALLOCATE_FREE_MEMORY := ⟨pid, base, size, allocKind, protection, true, physical⟩
  if st.hDriver = INVALID_HANDLE_VALUE then
    ⟨STATUS_DEVICE_DOES_NOT_EXIST, base, size, []⟩
  else if (ch.respAt 0).ok then
    let r := (ch.respAt 0).out.asAllocResult
    ⟨STATUS_SUCCESS, r.address, r.size, [req]⟩
  else
    ⟨ch.lastStatus, 0, 0, [req]⟩

/-- Caller-visible result of `MapMemoryRegion` (struct
`MapMemoryRegionResult`, fields written at `DriverControl.cpp:186-190`). -/
structure MapMemoryRegionResult where
  newPtr : Nat
  originalPtr : Nat
  removedPtr : Nat
  removedSize : Nat
  size : Nat
deriving DecidableEq

/-- Outcome of `MapMemoryRegion`: status, final content of the
by-reference result and the requests issued. -/
structure MapRegionOut where
  status : NTSTATUS
  result : MapMemoryRegionResult
  sent : List MAP_MEMORY_REGION
deriving DecidableEq

/-- Embeds `DriverControl::MapMemoryRegion` (`DriverControl.cpp:170-196`): on
failure the by-reference result is left as passed. -/
def MapMemoryRegion (st : DrvState) (pid base size : Nat)
    (result : MapMemoryRegionResult) (ch : Channel) : MapRegionOut :=
  if st.hDriver = INVALID_HANDLE_VALUE then
    ⟨STATUS_DEVICE_DOES_NOT_EXIST, result, []⟩
  else if (ch.respAt 0).ok then
    let r := (ch.respAt 0).out.asRegionResult
    ⟨STATUS_SUCCESS, ⟨r.newPtr, r.originalPtr, r.removedPtr, r.removedSize, r.size⟩,
      [⟨pid, base, size⟩]⟩
  else
    ⟨ch.lastStatus, result, [⟨pid, base, size⟩]⟩

/-! ### Bulk mapping: `std::map` region set and the two-phase `MapMemory` -/

/-- Region map of `MapMemoryResult::regions`: a `std::map` from
`(original address, region size)` to the new address, embedded as an
association list with `std::map` lookup/insert semantics. -/
abbrev RegionMap := List ((Nat × Nat) × Nat)

/-- The `std::map::find`-style lookup on the embedded region map. -/
def rlookup (m : RegionMap) (k : Nat × Nat) : Option Nat :=
  match m with
  | [] => none
  | (k', v) :: t => if k' = k then some v else rlookup t k

/-- The `std::map::emplace`: inserts `(k, v)` only when `k` is absent; an
existing binding of `k` is never replaced. -/
def emplace (m : RegionMap) (k : Nat × Nat) (v : Nat) : RegionMap :=
  if (rlookup m k).isSome then m else m ++ [(k, v)]

/-- Caller-visible result of `MapMemory` (struct `MapMemoryResult`,
fields written at `DriverControl.cpp:146-152`). -/
structure MapMemoryResult where
  regions : RegionMap
  hostSharedPage : Nat
  targetSharedPage : Nat
  targetPipe : Nat
deriving DecidableEq

/-- One `DeviceIoControl` call of `MapMemory`: the request record sent
and the byte capacity of the output buffer handed to the driver. -/
structure MapIoCall where
  req : MAP_MEMORY
  outBufSize : Nat
deriving DecidableEq

/-- Outcome of `MapMemory`: status, final content of the by-reference
result, the issued calls, and the `malloc`/`free` events on the
dynamically sized phase-2 buffer. -/
structure MapMemoryOut where
  status : NTSTATUS
  result : MapMemoryResult
  calls : List MapIoCall
  allocs : Nat
  frees : Nat
deriving DecidableEq

/-- Inserting the first `count` fetched entries into the caller's region
map, in order, via `std::map::emplace` (`DriverControl.cpp:146-148`). -/
def insertEntries (m : RegionMap) (entries : List MapEntry) : RegionMap :=
  entries.foldl (fun acc e => emplace acc (e.originalPtr, e.size) e.newPtr) m

/-- Embeds `DriverControl::MapMemory` (`DriverControl.cpp:125-160`).  Phase 1
probes with the address of the local `ULONG sizeRequired` as output
buffer, of size `sizeof(sizeRequired) = 4`.  Phase 2 runs only when the
probe transport call succeeded and reported exactly 4 bytes; it
`malloc`s a buffer of `sizeRequired` bytes and re-issues the request.
On phase-2 success the entries are emplaced into the caller's map, the
shared-page/pipe fields are overwritten and the buffer is freed; on
phase-2 failure the function returns `LastNtStatus()` without freeing
the buffer.  `none` = the `wcscpy_s` of the pipe name aborted the call
(`pipeCap` is the capacity of the record's `pipeName` array). -/
def MapMemory (pipeCap : Nat) (st : DrvState) (pid : Nat) (pipeName : String)
    (mapSections : Bool) (result : MapMemoryResult) (ch : Channel) :
    Option MapMemoryOut :=
  if st.hDriver = INVALID_HANDLE_VALUE then
    some ⟨STATUS_DEVICE_DOES_NOT_EXIST, result, [], 0, 0⟩
  else
    match wcscpy_s pipeCap pipeName with
    | none => none
    | some pn =>
      let req : MAP_MEMORY := ⟨pid, mapSections, pn⟩
      let r1 := ch.respAt 0
      let probeCall : MapIoCall := ⟨req, 4⟩
      if r1.ok ∧ r1.bytes = 4 then
        let sizeRequired := r1.out.asSize
        let r2 := ch.respAt 1
        let fetchCall : MapIoCall := ⟨req, sizeRequired⟩
        if r2.ok then
          let mr := r2.out.asMapResult
          let regions' := insertEntries result.regions (mr.entries.take mr.count)
          some ⟨STATUS_SUCCESS,
                ⟨regions', mr.hostPage, mr.targetPage, mr.pipeHandle⟩,
                [probeCall, fetchCall], 1, 1⟩
        else
          some ⟨ch.lastStatus, result, [probeCall, fetchCall], 1, 0⟩
      else
        some ⟨ch.lastStatus, result, [probeCall], 0, 0⟩

/-! ### Service registry (`PrepareDriverRegEntry`) -/

/-- Outcome oracle of the four registry API steps used by
`PrepareDriverRegEntry`: `RegOpenKeyW`, `RegCreateKeyW` and the two
`RegSetValueExW` calls.  `0` = `ERROR_SUCCESS`. -/
structure RegEnv where
  openKeyStatus : Nat
  createKeyStatus : Nat
  setImagePathStatus : Nat
  setTypeStatus : Nat
deriving DecidableEq

/-- A registry value datum: `REG_SZ` string or `REG_DWORD` number. -/
inductive RegValue where
  | str (s : String)
  | dword (n : Nat)
deriving DecidableEq

/-- One value written into the registry store: the subkey under
`HKLM\system\CurrentControlSet\Services`, the value name and the
datum. -/
structure RegWrite where
  subKey : String
  valueName : String
  value : RegValue
deriving DecidableEq

/-- The `swprintf_s` into a `WCHAR[MAX_PATH]` buffer: produces the formatted
string when it fits with its terminator, otherwise the
invalid-parameter constraint handler runs (`none`). -/
def swprintf_s_path (cap : Nat) (s : String) : Option String :=
  if s.length + 1 ≤ cap then some s else none

/-- The `MAX_PATH`. -/
def MAX_PATH : Nat := 260

/-- Embeds `DriverControl::PrepareDriverRegEntry` (`DriverControl.cpp:612-653`):
formats `\??\<path>` into a `WCHAR[MAX_PATH]` buffer, opens the fixed
services key, creates/opens the subkey named by `svcName`, writes the
`ImagePath` `REG_SZ` value and the `Type` `REG_DWORD` value `1`
(the source declares `BYTE dwType = 1` and passes it with
`sizeof(DWORD)`; the embedding reads the declared value `1`).  Each
failing step returns its native `LSTATUS` at once; writes already
performed by earlier steps stay (no rollback).  Returns the final
`LSTATUS` together with the list of values actually written. -/
def PrepareDriverRegEntry (svcName path : String) (env : RegEnv) :
    Option (Nat × List RegWrite) :=
  match swprintf_s_path MAX_PATH ("\\??\\" ++ path) with
  | none => none
  | some localPath =>
    if env.openKeyStatus ≠ 0 then some (env.openKeyStatus, [])
    else if env.createKeyStatus ≠ 0 then some (env.createKeyStatus, [])
    else if env.setImagePathStatus ≠ 0 then some (env.setImagePathStatus, [])
    else
      let w1 : RegWrite := ⟨svcName, "ImagePath", RegValue.str localPath⟩
      if env.setTypeStatus ≠ 0 then some (env.setTypeStatus, [w1])
      else some (0, [w1, ⟨svcName, "Type", RegValue.dword 1⟩])

/-! ### OS version tiers and default driver file resolution -/

/-- An OS version as compared by `VersionHelpers.h`: major and minor
version numbers. -/
structure OsVer where
  major : Nat
  minor : Nat
deriving DecidableEq

/-- Version-at-least comparison underlying the `IsWindows*OrGreater`
helpers. -/
def OsVer.atLeast (v : OsVer) (M m : Nat) : Bool :=
  M < v.major ∨ (v.major = M ∧ m ≤ v.minor)

/-- The `IsWindows7OrGreater`: version ≥ 6.1. -/
def IsWindows7OrGreater (v : OsVer) : Bool := v.atLeast 6 1

/-- The `IsWindows8OrGreater`: version ≥ 6.2. -/
def IsWindows8OrGreater (v : OsVer) : Bool := v.atLeast 6 2

/-- The `IsWindows8Point1OrGreater`: version ≥ 6.3. -/
def IsWindows8Point1OrGreater (v : OsVer) : Bool := v.atLeast 6 3

/-- Default driver file name selection (`DriverControl.cpp:69-77`),
checked newest tier first. -/
def defaultDriverFile (v : OsVer) : String :=
  if IsWindows8Point1OrGreater v then "BlackBoneDrv81.sys"
  else if IsWindows8OrGreater v then "BlackBoneDrv8.sys"
  else if IsWindows7OrGreater v then "BlackBoneDrv7.sys"
  else "BlackBoneDrv.sys"

/-- Path resolution of `Reload` (`DriverControl.cpp:66-80`): an empty
path resolves to the default file name next to the running executable. -/
def resolveDriverPath (exeDir : String) (v : OsVer) (path : String) : String :=
  if path = "" then exeDir ++ "\\" ++ defaultDriverFile v else path

/-! ### Lifecycle: `EnsureLoaded` / `Reload` / `Unload` -/

/-- Environment oracle for the lifecycle operations: successive
`CreateFile` results (`INVALID_HANDLE_VALUE` = failure), successive
`NtLoadDriver` and `NtUnloadDriver` statuses, the registry oracle, the
executable directory, the OS version and the value `LastNtStatus()`
currently reads. -/
structure LifeEnv where
  creates : List Handle
  loads : List NTSTATUS
  unloads : List NTSTATUS
  reg : RegEnv
  exeDir : String
  osVer : OsVer
  lastStatus : NTSTATUS
deriving DecidableEq

/-- The handles opened by `CreateFile` and not yet closed, tracked to
state the single-outstanding-handle invariant. -/
structure World where
  openHandles : List Handle
deriving DecidableEq

/-- Externally visible lifecycle events, in program order. -/
inductive LifeEvent where
  | createFile (h : Handle)
  | closeHandle (h : Handle)
  | regWrite (w : RegWrite)
  | ntLoadDriver (s : NTSTATUS)
  | ntUnloadDriver (s : NTSTATUS)
deriving DecidableEq

/-- Next `CreateFile` result; an exhausted oracle fails the open. -/
def takeCreate (env : LifeEnv) : Handle × LifeEnv :=
  match env.creates with
  | [] => (INVALID_HANDLE_VALUE, env)
  | h :: t => (h, { env with creates := t })

/-- Next `NtLoadDriver` status; an exhausted oracle reports success. -/
def takeLoad (env : LifeEnv) : NTSTATUS × LifeEnv :=
  match env.loads with
  | [] => (STATUS_SUCCESS, env)
  | s :: t => (s, { env with loads := t })

/-- Next `NtUnloadDriver` status; an exhausted oracle reports success. -/
def takeUnload (env : LifeEnv) : NTSTATUS × LifeEnv :=
  match env.unloads with
  | [] => (STATUS_SUCCESS, env)
  | s :: t => (s, { env with unloads := t })

/-- The `CloseHandle`: removes one occurrence of the handle from the open
set. -/
def closeHandle (w : World) (h : Handle) : World :=
  ⟨w.openHandles.erase h⟩

/-- Result of a lifecycle operation: status, new object state, new open
handle set, consumed environment and the event trace. -/
structure LifeOut where
  status : NTSTATUS
  st : DrvState
  w : World
  env : LifeEnv
  evts : List LifeEvent
deriving DecidableEq

/-- Embeds `DriverControl::UnloadDriver` (`DriverControl.cpp:595-604`): builds
the registry path of the fixed service name and calls `NtUnloadDriver`
on it. -/
def UnloadDriver (env : LifeEnv) : NTSTATUS × LifeEnv × List LifeEvent :=
  let s := (takeUnload env).1
  (s, (takeUnload env).2, [LifeEvent.ntUnloadDriver s])

/-- Embeds `DriverControl::Unload` (`DriverControl.cpp:105-114`): closes the
control handle if open and sets the sentinel unconditionally, then
issues the stop/unload instruction and returns its status. -/
def Unload (st : DrvState) (w : World) (env : LifeEnv) : LifeOut :=
  let closed :=
    if st.hDriver ≠ INVALID_HANDLE_VALUE then
      ([LifeEvent.closeHandle st.hDriver], closeHandle w st.hDriver)
    else ([], w)
  let r := UnloadDriver env
  ⟨r.1, ⟨INVALID_HANDLE_VALUE⟩, closed.2, r.2.1, closed.1 ++ r.2.2⟩

/-- Embeds `DriverControl::LoadDriver` (`DriverControl.cpp:575-587`): when a
path is supplied, writes the service registry entry first and on its
failure returns `LastNtStatus()` (the ambient last status, not the
`LSTATUS`); otherwise calls `NtLoadDriver` on the service registry
path.  `none` = the `swprintf_s` inside `PrepareDriverRegEntry` aborted
the call. -/
def LoadDriver (path : String) (env : LifeEnv) :
    Option (NTSTATUS × LifeEnv × List LifeEvent) :=
  if path ≠ "" then
    match PrepareDriverRegEntry "BlackBone" path env.reg with
    | none => none
    | some (ls, ws) =>
      if ls ≠ 0 then some (env.lastStatus, env, ws.map LifeEvent.regWrite)
      else
        let s := (takeLoad env).1
        some (s, (takeLoad env).2, ws.map LifeEvent.regWrite ++ [LifeEvent.ntLoadDriver s])
  else
    let s := (takeLoad env).1
    some (s, (takeLoad env).2, [LifeEvent.ntLoadDriver s])

/-- Embeds `DriverControl::Reload` (`DriverControl.cpp:60-99`): unload first,
resolve the default path when none is given, register and start the
service, then open the control device.  A load failure returns
`LastNtStatus(status) = status` with the handle still the sentinel; an
open failure returns `LastNtStatus()` with the handle holding the
assigned `INVALID_HANDLE_VALUE`. -/
def Reload (st : DrvState) (w : World) (env : LifeEnv) (path : String) :
    Option LifeOut :=
  let u := Unload st w env
  let path' := resolveDriverPath u.env.exeDir u.env.osVer path
  match LoadDriver path' u.env with
  | none => none
  | some (ls, env1, evts1) =>
    if NT_SUCCESS ls = false then
      some ⟨ls, u.st, u.w, env1, u.evts ++ evts1⟩
    else
      let h := (takeCreate env1).1
      let env2 := (takeCreate env1).2
      let w2 : World := if h ≠ INVALID_HANDLE_VALUE then ⟨u.w.openHandles ++ [h]⟩ else u.w
      if h = INVALID_HANDLE_VALUE then
        some ⟨env2.lastStatus, ⟨h⟩, w2, env2, u.evts ++ evts1 ++ [LifeEvent.createFile h]⟩
      else
        some ⟨STATUS_SUCCESS, ⟨h⟩, w2, env2, u.evts ++ evts1 ++ [LifeEvent.createFile h]⟩

/-- Embeds `DriverControl::EnsureLoaded` (`DriverControl.cpp:38-53`): success
at once when the handle is already open; otherwise try to open the
device of an already-running driver, and only if that fails perform a
full `Reload`. -/
def EnsureLoaded (st : DrvState) (w : World) (env : LifeEnv) (path : String) :
    Option LifeOut :=
  if st.hDriver ≠ INVALID_HANDLE_VALUE then
    some ⟨STATUS_SUCCESS, st, w, env, []⟩
  else
    let h := (takeCreate env).1
    let env1 := (takeCreate env).2
    let w1 : World := if h ≠ INVALID_HANDLE_VALUE then ⟨w.openHandles ++ [h]⟩ else w
    if h ≠ INVALID_HANDLE_VALUE then
      some ⟨STATUS_SUCCESS, ⟨h⟩, w1, env1, [LifeEvent.createFile h]⟩
    else
      match Reload ⟨h⟩ w1 env1 path with
      | none => none
      | some r => some ⟨r.status, r.st, r.w, r.env, LifeEvent.createFile h :: r.evts⟩

/-- The extension-handle state invariant: the object either is in the
sentinel state and owns no open handle, or holds exactly the one open
handle it tracks. -/
def handleInv (st : DrvState) (w : World) : Prop :=
  (st.hDriver = INVALID_HANDLE_VALUE ∧ w.openHandles = []) ∨
  (st.hDriver ≠ INVALID_HANDLE_VALUE ∧ w.openHandles = [st.hDriver])

instance (st : DrvState) (w : World) : Decidable (handleInv st w) := by
  unfold handleInv; infer_instance

/-! ### Helper lemmas on the region map -/

/-- The `std::map` key of a fetched entry: `(original address, size)`. -/
def MapEntry.keyOf (e : MapEntry) : Nat × Nat := (e.originalPtr, e.size)

theorem rlookup_append (m l : RegionMap) (k : Nat × Nat) :
    rlookup (m ++ l) k = ((rlookup m k).rec (rlookup l k) (fun v => some v) : Option Nat) := by
  induction m with
  | nil => simp [rlookup]
  | cons p t ih =>
    obtain ⟨k', v⟩ := p
    by_cases h : k' = k <;> simp [rlookup, h, ih]

theorem rlookup_emplace_of_isSome (m : RegionMap) (k k0 : Nat × Nat) (v : Nat)
    (h : (rlookup m k0).isSome) : rlookup (emplace m k v) k0 = rlookup m k0 := by
  unfold emplace
  split
  · rfl
  · rw [rlookup_append]
    cases hm : rlookup m k0 with
    | none => rw [hm] at h; simp at h
    | some w => rfl

theorem insertEntries_cons (m : RegionMap) (e : MapEntry) (t : List MapEntry) :
    insertEntries m (e :: t) = insertEntries (emplace m e.keyOf e.newPtr) t := by
  simp [insertEntries, MapEntry.keyOf]

theorem insertEntries_preserves (l : List MapEntry) (m : RegionMap) (k0 : Nat × Nat)
    (h : (rlookup m k0).isSome) : rlookup (insertEntries m l) k0 = rlookup m k0 := by
  induction l generalizing m with
  | nil => rfl
  | cons e t ih =>
    rw [insertEntries_cons]
    rw [ih (emplace m e.keyOf e.newPtr)]
    · exact rlookup_emplace_of_isSome m e.keyOf k0 e.newPtr h
    · rw [rlookup_emplace_of_isSome m e.keyOf k0 e.newPtr h]; exact h

theorem emplace_of_none (m : RegionMap) (k : Nat × Nat) (v : Nat)
    (h : rlookup m k = none) : emplace m k v = m ++ [(k, v)] := by
  unfold emplace
  rw [h]
  simp

theorem rlookup_append_single_ne (m : RegionMap) (k k0 : Nat × Nat) (v : Nat)
    (hne : k ≠ k0) (h : rlookup m k0 = none) : rlookup (m ++ [(k, v)]) k0 = none := by
  rw [rlookup_append, h]
  simp [rlookup, hne]

theorem rlookup_append_single_self (m : RegionMap) (k : Nat × Nat) (v : Nat)
    (h : rlookup m k = none) : rlookup (m ++ [(k, v)]) k = some v := by
  rw [rlookup_append, h]
  simp [rlookup]

theorem insertEntries_length_nodup (l : List MapEntry) (m : RegionMap)
    (hfresh : ∀ e ∈ l, rlookup m e.keyOf = none)
    (hnd : (l.map MapEntry.keyOf).Nodup) :
    (insertEntries m l).length = m.length + l.length := by
  induction l generalizing m with
  | nil => simp [insertEntries]
  | cons e t ih =>
    rw [insertEntries_cons,
        emplace_of_none m e.keyOf e.newPtr (hfresh e (List.mem_cons_self e t))]
    rw [List.map_cons, List.nodup_cons] at hnd
    have hfresh' : ∀ e' ∈ t, rlookup (m ++ [(e.keyOf, e.newPtr)]) e'.keyOf = none := by
      intro e' he'
      refine rlookup_append_single_ne m e.keyOf e'.keyOf e.newPtr ?_
        (hfresh e' (List.mem_cons_of_mem e he'))
      intro hk
      exact hnd.1 (hk ▸ List.mem_map_of_mem MapEntry.keyOf he')
    rw [ih (m ++ [(e.keyOf, e.newPtr)]) hfresh' hnd.2]
    simp
    omega

theorem insertEntries_lookup_nodup (l : List MapEntry) (m : RegionMap)
    (hfresh : ∀ e ∈ l, rlookup m e.keyOf = none)
    (hnd : (l.map MapEntry.keyOf).Nodup) :
    ∀ e ∈ l, rlookup (insertEntries m l) e.keyOf = some e.newPtr := by
  induction l generalizing m with
  | nil => intro e he; exact absurd he (List.not_mem_nil e)
  | cons e0 t ih =>
    intro e he
    rw [insertEntries_cons,
        emplace_of_none m e0.keyOf e0.newPtr (hfresh e0 (List.mem_cons_self e0 t))]
    rw [List.map_cons, List.nodup_cons] at hnd
    have hfresh' : ∀ e' ∈ t, rlookup (m ++ [(e0.keyOf, e0.newPtr)]) e'.keyOf = none := by
      intro e' he'
      refine rlookup_append_single_ne m e0.keyOf e'.keyOf e0.newPtr ?_
        (hfresh e' (List.mem_cons_of_mem e0 he'))
      intro hk
      exact hnd.1 (hk ▸ List.mem_map_of_mem MapEntry.keyOf he')
    rcases List.mem_cons.mp he with rfl | he'
    · rw [insertEntries_preserves t _ e.keyOf]
      · exact rlookup_append_single_self m e.keyOf e.newPtr
          (hfresh e (List.mem_cons_self e t))
      · rw [rlookup_append_single_self m e.keyOf e.newPtr
          (hfresh e (List.mem_cons_self e t))]
        rfl
    · exact ih (m ++ [(e0.keyOf, e0.newPtr)]) hfresh' hnd.2 e he'

/-! ## Claim theorems -/

/-- C1: for every public command operation (MapMemory, MapMemoryRegion,
UnmapMemory, UnmapMemoryRegion, DisableDEP, ProtectProcess,
PromoteHandle, AllocateMem, FreeMem, ReadMem, WriteMem, ProtectMem,
InjectDll, MMapDriver, ConcealVAD), if the control handle is the
not-loaded sentinel, the call returns `STATUS_DEVICE_DOES_NOT_EXIST`
immediately with zero device-control round trips (no request is sent
over the channel). -/
theorem notLoaded_rejects_without_io (st : DrvState)
    (hst : st.hDriver = INVALID_HANDLE_VALUE) :
    (∀ pipeCap pid pipeName mapSections result ch,
      MapMemory pipeCap st pid pipeName mapSections result ch =
        some ⟨STATUS_DEVICE_DOES_NOT_EXIST, result, [], 0, 0⟩) ∧
    (∀ pid base size result ch,
      MapMemoryRegion st pid base size result ch =
        ⟨STATUS_DEVICE_DOES_NOT_EXIST, result, []⟩) ∧
    (∀ pid ch, UnmapMemory st pid ch = ⟨STATUS_DEVICE_DOES_NOT_EXIST, []⟩) ∧
    (∀ pid base size ch,
      UnmapMemoryRegion st pid base size ch = ⟨STATUS_DEVICE_DOES_NOT_EXIST, []⟩) ∧
    (∀ pid ch, DisableDEP st pid ch = ⟨STATUS_DEVICE_DOES_NOT_EXIST, []⟩) ∧
    (∀ pid enable ch,
      ProtectProcess st pid enable ch = ⟨STATUS_DEVICE_DOES_NOT_EXIST, []⟩) ∧
    (∀ pid handle access ch,
      PromoteHandle st pid handle access ch = ⟨STATUS_DEVICE_DOES_NOT_EXIST, []⟩) ∧
    (∀ pid base size allocKind protection physical ch,
      AllocateMem st pid base size allocKind protection physical ch =
        ⟨STATUS_DEVICE_DOES_NOT_EXIST, base, size, []⟩) ∧
    (∀ pid base size freeKind ch,
      FreeMem st pid base size freeKind ch = ⟨STATUS_DEVICE_DOES_NOT_EXIST, []⟩) ∧
    (∀ pid base size buffer ch,
      ReadMem st pid base size buffer ch = ⟨STATUS_DEVICE_DOES_NOT_EXIST, []⟩) ∧
    (∀ pid base size buffer ch,
      WriteMem st pid base size buffer ch = ⟨STATUS_DEVICE_DOES_NOT_EXIST, []⟩) ∧
    (∀ pid base size protection ch,
      ProtectMem st pid base size protection ch = ⟨STATUS_DEVICE_DOES_NOT_EXIST, []⟩) ∧
    (∀ dllCap argCap pid path itype initRVA initArg unlink wait ch,
      InjectDll dllCap argCap st pid path itype initRVA initArg unlink wait ch =
        some ⟨STATUS_DEVICE_DOES_NOT_EXIST, []⟩) ∧
    (∀ pathCap path ch,
      MMapDriver pathCap st path ch = some ⟨STATUS_DEVICE_DOES_NOT_EXIST, []⟩) ∧
    (∀ pid base size ch,
      ConcealVAD st pid base size ch = ⟨STATUS_DEVICE_DOES_NOT_EXIST, []⟩) := by
  refine ⟨?_, ?_, ?_, ?_, ?_, ?_, ?_, ?_, ?_, ?_, ?_, ?_, ?_, ?_, ?_⟩ <;> intros <;>
    simp [MapMemory, MapMemoryRegion, UnmapMemory, UnmapMemoryRegion, DisableDEP,
      ProtectProcess, PromoteHandle, AllocateMem, FreeMem, ReadMem, WriteMem,
      ProtectMem, InjectDll, MMapDriver, ConcealVAD, simpleCommand, hst]

/-- Witness for C1 at a concrete not-loaded state. -/
theorem notLoaded_rejects_without_io_witness :
    UnmapMemory ⟨INVALID_HANDLE_VALUE⟩ 42 ⟨[⟨true, 0, IoOut.nothing⟩], 7⟩ =
      ⟨STATUS_DEVICE_DOES_NOT_EXIST, []⟩ :=
  (notLoaded_rejects_without_io ⟨INVALID_HANDLE_VALUE⟩ rfl).2.2.1 42
    ⟨[⟨true, 0, IoOut.nothing⟩], 7⟩

/-- C3 counterexample: `AllocateMem` called in the not-loaded state with
`base = 5`, `size = 7` returns the non-success status
`STATUS_DEVICE_DOES_NOT_EXIST` while leaving `base` and `size` unchanged
(5 and 7, not 0): the claim "every non-success return resets base and
size to 0" fails on the precondition-failure path
(`DriverControl.cpp:340-341` returns before the reset at line 345). -/
theorem allocateMem_notLoaded_keeps_base_size :
    AllocateMem ⟨INVALID_HANDLE_VALUE⟩ 1 5 7 0x1000 4 false ⟨[], 3⟩ =
      ⟨STATUS_DEVICE_DOES_NOT_EXIST, 5, 7, []⟩ ∧
    NT_SUCCESS STATUS_DEVICE_DOES_NOT_EXIST = false ∧
    (5 : Nat) ≠ 0 ∧ (7 : Nat) ≠ 0 := by
  decide

/-- C3 (amended): for every `AllocateMem` call that issues the
device-control round trip and whose transport call fails, the
caller-visible `base` and `size` are both reset to 0 on return; the
not-loaded precondition failure instead returns
`STATUS_DEVICE_DOES_NOT_EXIST` with `base` and `size` left unchanged. -/
theorem allocateMem_failure_resets_base_size :
    (∀ st pid base size allocKind protection physical (ch : Channel),
      st.hDriver ≠ INVALID_HANDLE_VALUE → (ch.respAt 0).ok = false →
      AllocateMem st pid base size allocKind protection physical ch =
        ⟨ch.lastStatus, 0, 0,
          [⟨pid, base, size, allocKind, protection, true, physical⟩]⟩) ∧
    (∀ st pid base size allocKind protection physical (ch : Channel),
      st.hDriver = INVALID_HANDLE_VALUE →
      AllocateMem st pid base size allocKind protection physical ch =
        ⟨STATUS_DEVICE_DOES_NOT_EXIST, base, size, []⟩) := by
  constructor <;> intro st pid base size allocKind protection physical ch h
  · intro hfail
    simp [AllocateMem, h, hfail]
  · simp [AllocateMem, h]

/-- Witness for C3's amended theorem: a concrete failing round trip
resets `base`/`size` from 5/7 to 0/0. -/
theorem allocateMem_failure_resets_base_size_witness :
    AllocateMem ⟨9⟩ 1 5 7 0x1000 4 false ⟨[⟨false, 0, IoOut.nothing⟩], 0xC0000001⟩ =
      ⟨0xC0000001, 0, 0, [⟨1, 5, 7, 0x1000, 4, true, false⟩]⟩ := by
  have h := allocateMem_failure_resets_base_size.1 ⟨9⟩ 1 5 7 0x1000 4 false
    ⟨[⟨false, 0, IoOut.nothing⟩], 0xC0000001⟩ (by decide) (by decide)
  simpa using h

/-- Concrete channel for the C2 counterexample: the probe succeeds with
a 4-byte size hint, the fetch succeeds with N = 2 entries that share the
key `(10, 4)`. -/
def chDup : Channel :=
  ⟨[⟨true, 4, IoOut.sizeHint 64⟩,
    ⟨true, 80, IoOut.mapResult ⟨2, [⟨10, 20, 4⟩, ⟨10, 30, 4⟩], 7, 8, 9⟩⟩], 5⟩

/-- The `MapMemory` outcome on `chDup` from a loaded state with an empty
region map. -/
def outDup : MapMemoryOut :=
  (MapMemory 32 ⟨5⟩ 1 "p" true ⟨[], 0, 0, 0⟩ chDup).getD
    ⟨0, ⟨[], 0, 0, 0⟩, [], 0, 0⟩

/-- C2 counterexample: at a concrete input the probe call passes a
4-byte output buffer (`&sizeRequired, sizeof(sizeRequired)`,
`DriverControl.cpp:139`), not a zero-length one; and a successful
phase 2 with N = 2 entries sharing one `(original address, size)` key
yields a mapping set with 1 entry, not exactly N = 2
(`std::map::emplace` drops the duplicate). -/
theorem mapMemory_probe_four_bytes_dup_collapse :
    outDup.status = STATUS_SUCCESS ∧
    outDup.calls.map MapIoCall.outBufSize = [4, 64] ∧
    (outDup.calls.map MapIoCall.outBufSize).headD 0 ≠ 0 ∧
    outDup.result.regions.length = 1 ∧
    outDup.result.regions.length ≠ 2 := by
  decide

/-- C2 (amended): `MapMemory` is two-phase: it probes the required
result size with a 4-byte output buffer (the address of the local
`ULONG` size variable) and proceeds to phase 2 if and only if the probe
transport call succeeds and reports exactly 4 bytes; when phase 2
succeeds with N mapping entries whose `(original address, size)` keys
are pairwise distinct and the caller's region map starts empty, the
returned mapping set contains exactly N entries mapping each key to its
new address, and the host/target shared-page and pipe-handle fields
equal those of the phase-2 response. -/
theorem mapMemory_two_phase_bulk :
    (∀ pipeCap (st : DrvState) pid pipeName mapSections result (ch : Channel) out,
      st.hDriver ≠ INVALID_HANDLE_VALUE →
      MapMemory pipeCap st pid pipeName mapSections result ch = some out →
      (out.calls.length = 2 ↔ ((ch.respAt 0).ok = true ∧ (ch.respAt 0).bytes = 4))) ∧
    (∀ pipeCap (st : DrvState) pid pipeName mapSections
       (result : MapMemoryResult) sz b2 (mr : MAP_MEMORY_RESULT) lastSt,
      st.hDriver ≠ INVALID_HANDLE_VALUE →
      pipeName.length + 1 ≤ pipeCap →
      mr.count = mr.entries.length →
      (mr.entries.map MapEntry.keyOf).Nodup →
      result.regions = [] →
      ∃ out,
        MapMemory pipeCap st pid pipeName mapSections result
          ⟨[⟨true, 4, IoOut.sizeHint sz⟩, ⟨true, b2, IoOut.mapResult mr⟩], lastSt⟩ =
            some out ∧
        out.status = STATUS_SUCCESS ∧
        out.calls.map MapIoCall.outBufSize = [4, sz] ∧
        out.result.regions.length = mr.entries.length ∧
        (∀ e ∈ mr.entries, rlookup out.result.regions e.keyOf = some e.newPtr) ∧
        out.result.hostSharedPage = mr.hostPage ∧
        out.result.targetSharedPage = mr.targetPage ∧
        out.result.targetPipe = mr.pipeHandle) := by
  constructor
  · intro pipeCap st pid pipeName mapSections result ch out hld hout
    simp only [MapMemory, if_neg hld] at hout
    cases hw : wcscpy_s pipeCap pipeName with
    | none => rw [hw] at hout; exact absurd hout (by simp)
    | some pn =>
      rw [hw] at hout
      simp only at hout
      by_cases hc : (ch.respAt 0).ok = true ∧ (ch.respAt 0).bytes = 4
      · rw [if_pos hc] at hout
        by_cases h2 : (ch.respAt 1).ok = true
        · rw [if_pos h2] at hout
          injection hout with hout
          subst hout
          simp [hc]
        · rw [if_neg h2] at hout
          injection hout with hout
          subst hout
          simp [hc]
      · rw [if_neg hc] at hout
        injection hout with hout
        subst hout
        simp [hc]
  · intro pipeCap st pid pipeName mapSections result sz b2 mr lastSt
      hld hfit hcnt hnd hempty
    have hw : wcscpy_s pipeCap pipeName = some pipeName := by
      simp [wcscpy_s, hfit]
    have hmm : MapMemory pipeCap st pid pipeName mapSections result
        ⟨[⟨true, 4, IoOut.sizeHint sz⟩, ⟨true, b2, IoOut.mapResult mr⟩], lastSt⟩ =
      some ⟨STATUS_SUCCESS,
            ⟨insertEntries result.regions (mr.entries.take mr.count),
             mr.hostPage, mr.targetPage, mr.pipeHandle⟩,
            [⟨⟨pid, mapSections, pipeName⟩, 4⟩, ⟨⟨pid, mapSections, pipeName⟩, sz⟩],
            1, 1⟩ := by
      simp [MapMemory, hld, hw, Channel.respAt, IoOut.asSize, IoOut.asMapResult]
    have htake : mr.entries.take mr.count = mr.entries := by
      rw [hcnt]; exact List.take_length _
    have hfresh : ∀ e ∈ mr.entries, rlookup ([] : RegionMap) e.keyOf = none := by
      intro e _; rfl
    refine ⟨_, hmm, rfl, by simp, ?_, ?_, rfl, rfl, rfl⟩
    · show (insertEntries result.regions (mr.entries.take mr.count)).length =
        mr.entries.length
      rw [hempty, htake, insertEntries_length_nodup mr.entries [] hfresh hnd]
      simp
    · intro e he
      show rlookup (insertEntries result.regions (mr.entries.take mr.count)) e.keyOf =
        some e.newPtr
      rw [hempty, htake]
      exact insertEntries_lookup_nodup mr.entries [] hfresh hnd e he

/-- Witness for C2's amended theorem: one fetched entry lands in the map
with a successful status. -/
theorem mapMemory_two_phase_bulk_witness :
    ∃ out, MapMemory 32 ⟨9⟩ 1 "p" true ⟨[], 0, 0, 0⟩
        ⟨[⟨true, 4, IoOut.sizeHint 64⟩,
          ⟨true, 80, IoOut.mapResult ⟨1, [⟨10, 20, 4⟩], 7, 8, 9⟩⟩], 3⟩ = some out ∧
      out.status = STATUS_SUCCESS ∧ out.result.regions.length = 1 := by
  obtain ⟨out, h1, h2, _, h4, _⟩ :=
    mapMemory_two_phase_bulk.2 32 ⟨9⟩ 1 "p" true ⟨[], 0, 0, 0⟩ 64 80
      ⟨1, [⟨10, 20, 4⟩], 7, 8, 9⟩ 3 (by decide) (by decide) rfl (by decide) rfl
  exact ⟨out, h1, h2, h4⟩

/-- Channel for the C9 failing input: probe succeeds with a 4-byte size
hint, fetch fails at the transport. -/
def chLeak : Channel :=
  ⟨[⟨true, 4, IoOut.sizeHint 64⟩, ⟨false, 0, IoOut.nothing⟩], 0xC0000001⟩

/-- C9: at the failing input (loaded handle, probe success with 4-byte
hint, fetch-phase transport failure) `MapMemory` returns
`LastNtStatus()` after one `malloc` and zero `free`s: the dynamically
sized result buffer is leaked on the fetch-failure path — the `free` at
`DriverControl.cpp:154` lies inside the success branch only, while the
failure path falls through to `return LastNtStatus()` at line 159
without releasing the buffer. -/
theorem mapMemory_fetch_failure_leaks_buffer :
    (MapMemory 32 ⟨5⟩ 1 "p" true ⟨[], 0, 0, 0⟩ chLeak).getD
        ⟨0, ⟨[], 0, 0, 0⟩, [], 0, 0⟩ =
      ⟨0xC0000001, ⟨[], 0, 0, 0⟩,
       [⟨⟨1, true, "p"⟩, 4⟩, ⟨⟨1, true, "p"⟩, 64⟩], 1, 0⟩ := by
  decide

/-- C10: `MapMemory` never clears the caller-supplied region map: any
key present before the call still maps to its old value afterwards, on
every path, so a fetched entry whose `(original address, size)` key
already exists does not replace the existing binding
(`std::map::emplace`, `DriverControl.cpp:146-148`). -/
theorem mapMemory_preserves_existing_regions
    (pipeCap : Nat) (st : DrvState) (pid : Nat) (pipeName : String) (mapSections : Bool)
    (result : MapMemoryResult) (ch : Channel) (out : MapMemoryOut) (k : Nat × Nat)
    (hout : MapMemory pipeCap st pid pipeName mapSections result ch = some out)
    (hk : (rlookup result.regions k).isSome) :
    rlookup out.result.regions k = rlookup result.regions k := by
  simp only [MapMemory] at hout
  by_cases hld : st.hDriver = INVALID_HANDLE_VALUE
  · rw [if_pos hld] at hout
    injection hout with hout; subst hout; rfl
  · rw [if_neg hld] at hout
    cases hw : wcscpy_s pipeCap pipeName with
    | none => rw [hw] at hout; exact absurd hout (by simp)
    | some pn =>
      rw [hw] at hout
      simp only at hout
      by_cases hc : ((ch.respAt 0).ok = true) ∧ (ch.respAt 0).bytes = 4
      · rw [if_pos hc] at hout
        by_cases h2 : (ch.respAt 1).ok = true
        · rw [if_pos h2] at hout
          injection hout with hout; subst hout
          exact insertEntries_preserves _ _ k hk
        · rw [if_neg h2] at hout
          injection hout with hout; subst hout; rfl
      · rw [if_neg hc] at hout
        injection hout with hout; subst hout; rfl

/-- Channel for the C10 witness: a successful bulk map returning one
entry whose key `(10, 4)` already exists in the caller's map. -/
def chKeep : Channel :=
  ⟨[⟨true, 4, IoOut.sizeHint 64⟩,
    ⟨true, 80, IoOut.mapResult ⟨1, [⟨10, 20, 4⟩], 7, 8, 9⟩⟩], 3⟩

/-- The `MapMemory` outcome on `chKeep` with a pre-populated region
map. -/
def outKeep : MapMemoryOut :=
  (MapMemory 32 ⟨9⟩ 1 "p" true ⟨[((10, 4), 99)], 0, 0, 0⟩ chKeep).getD
    ⟨0, ⟨[], 0, 0, 0⟩, [], 0, 0⟩

/-- Witness for C10: the pre-existing binding `(10, 4) ↦ 99` survives a
successful call whose fetched entry carries the same key with new
address 20. -/
theorem mapMemory_preserves_existing_regions_witness :
    rlookup outKeep.result.regions (10, 4) = some 99 := by
  have h := mapMemory_preserves_existing_regions 32 ⟨9⟩ 1 "p" true
    ⟨[((10, 4), 99)], 0, 0, 0⟩ chKeep outKeep (10, 4) (by decide) (by decide)
  rw [h]
  decide

/-- C5: after any `Unload` the handle is the not-loaded sentinel
regardless of the status the stop/unload instruction reports; a second
consecutive `Unload` performs no handle-close step and leaves the open
set untouched, while still issuing exactly the stop/unload instruction
and returning its status. -/
theorem unload_closes_handle_once (st : DrvState) (w : World) (env : LifeEnv) :
    (Unload st w env).st.hDriver = INVALID_HANDLE_VALUE ∧
    (Unload (Unload st w env).st (Unload st w env).w (Unload st w env).env).evts =
      [LifeEvent.ntUnloadDriver
        (Unload (Unload st w env).st (Unload st w env).w (Unload st w env).env).status] ∧
    (Unload (Unload st w env).st (Unload st w env).w (Unload st w env).env).w =
      (Unload st w env).w := by
  refine ⟨rfl, ?_, ?_⟩ <;> simp [Unload, UnloadDriver]

/-- The morally owned open-handle set after `Unload` is the one before,
minus the closed handle; in particular its state component is always
the sentinel. -/
theorem unload_handleInv (st : DrvState) (w : World) (env : LifeEnv)
    (hinv : handleInv st w) :
    handleInv (Unload st w env).st (Unload st w env).w := by
  have hw : (Unload st w env).w =
      if st.hDriver ≠ INVALID_HANDLE_VALUE then closeHandle w st.hDriver else w := by
    simp only [Unload]
    split <;> rfl
  rcases hinv with ⟨h1, h2⟩ | ⟨h1, h2⟩
  · left
    refine ⟨rfl, ?_⟩
    rw [hw, if_neg (by simp [h1])]
    exact h2
  · left
    refine ⟨rfl, ?_⟩
    rw [hw, if_pos h1]
    simp [closeHandle, h2]

/-- The `Reload` preserves the extension-handle invariant. -/
theorem reload_handleInv (st : DrvState) (w : World) (env : LifeEnv) (path : String)
    (r : LifeOut) (hinv : handleInv st w) (hr : Reload st w env path = some r) :
    handleInv r.st r.w := by
  have hu := unload_handleInv st w env hinv
  have hw0 : (Unload st w env).w.openHandles = [] := by
    rcases hu with ⟨_, h⟩ | ⟨h, _⟩
    · exact h
    · exact absurd rfl h
  simp only [Reload] at hr
  cases hL : LoadDriver
      (resolveDriverPath (Unload st w env).env.exeDir (Unload st w env).env.osVer path)
      (Unload st w env).env with
  | none => rw [hL] at hr; exact absurd hr (by simp)
  | some t =>
    obtain ⟨ls, env1, evts1⟩ := t
    rw [hL] at hr
    simp only at hr
    by_cases hns : NT_SUCCESS ls = false
    · rw [if_pos hns] at hr
      injection hr with hr; subst hr
      exact Or.inl ⟨rfl, hw0⟩
    · rw [if_neg hns] at hr
      by_cases hcr : (takeCreate env1).1 = INVALID_HANDLE_VALUE
      · rw [if_pos hcr] at hr
        injection hr with hr; subst hr
        left
        refine ⟨hcr, ?_⟩
        show (if (takeCreate env1).1 ≠ INVALID_HANDLE_VALUE then
            (⟨(Unload st w env).w.openHandles ++ [(takeCreate env1).1]⟩ : World)
          else (Unload st w env).w).openHandles = []
        rw [if_neg (by simp [hcr])]
        exact hw0
      · rw [if_neg hcr] at hr
        injection hr with hr; subst hr
        right
        refine ⟨hcr, ?_⟩
        show (if (takeCreate env1).1 ≠ INVALID_HANDLE_VALUE then
            (⟨(Unload st w env).w.openHandles ++ [(takeCreate env1).1]⟩ : World)
          else (Unload st w env).w).openHandles = [(takeCreate env1).1]
        rw [if_pos hcr, hw0]
        rfl

/-- C4: the extension-handle invariant — the handle field either is the
not-loaded sentinel with no outstanding open handle, or holds exactly
the one open handle — is preserved by `Unload`, `Reload` and
`EnsureLoaded` (the command operations only read the handle), and
`EnsureLoaded` attempts to open a new handle only from the sentinel
state, so it never leaves two outstanding open handles. -/
theorem handle_state_invariant (st : DrvState) (w : World) (env : LifeEnv) (path : String)
    (hinv : handleInv st w) :
    handleInv (Unload st w env).st (Unload st w env).w ∧
    (∀ r, Reload st w env path = some r → handleInv r.st r.w) ∧
    (∀ r, EnsureLoaded st w env path = some r → handleInv r.st r.w) ∧
    (st.hDriver ≠ INVALID_HANDLE_VALUE →
      ∀ r, EnsureLoaded st w env path = some r →
        ∀ h, LifeEvent.createFile h ∉ r.evts) := by
  refine ⟨unload_handleInv st w env hinv, fun r => reload_handleInv st w env path r hinv,
    ?_, ?_⟩
  · intro r hr
    simp only [EnsureLoaded] at hr
    by_cases hld : st.hDriver ≠ INVALID_HANDLE_VALUE
    · rw [if_pos hld] at hr
      injection hr with hr; subst hr
      exact hinv
    · rw [if_neg hld] at hr
      push_neg at hld
      have hwempty : w.openHandles = [] := by
        rcases hinv with ⟨_, h⟩ | ⟨h, _⟩
        · exact h
        · exact absurd hld h
      by_cases hcr : (takeCreate env).1 ≠ INVALID_HANDLE_VALUE
      · rw [if_pos hcr] at hr
        injection hr with hr; subst hr
        right
        refine ⟨hcr, ?_⟩
        show (if (takeCreate env).1 ≠ INVALID_HANDLE_VALUE then
            (⟨w.openHandles ++ [(takeCreate env).1]⟩ : World) else w).openHandles =
          [(takeCreate env).1]
        rw [if_pos hcr, hwempty]
        rfl
      · rw [if_neg hcr] at hr
        push_neg at hcr
        cases hRel : Reload ⟨(takeCreate env).1⟩
            (if (takeCreate env).1 ≠ INVALID_HANDLE_VALUE then
              (⟨w.openHandles ++ [(takeCreate env).1]⟩ : World) else w)
            (takeCreate env).2 path with
        | none => rw [hRel] at hr; exact absurd hr (by simp)
        | some r' =>
          rw [hRel] at hr
          injection hr with hr; subst hr
          have : handleInv (⟨(takeCreate env).1⟩ : DrvState)
              (if (takeCreate env).1 ≠ INVALID_HANDLE_VALUE then
                (⟨w.openHandles ++ [(takeCreate env).1]⟩ : World) else w) := by
            left
            refine ⟨hcr, ?_⟩
            rw [if_neg (by simp [hcr])]
            exact hwempty
          exact reload_handleInv _ _ _ _ r' this hRel
  · intro hld r hr h
    simp only [EnsureLoaded, if_pos hld] at hr
    injection hr with hr; subst hr
    simp

/-- Witness for C4 at a concrete sentinel state. -/
theorem handle_state_invariant_witness :
    handleInv
      (Unload ⟨INVALID_HANDLE_VALUE⟩ ⟨[]⟩ ⟨[], [], [], ⟨0, 0, 0, 0⟩, "C:\\t", ⟨6, 3⟩, 0⟩).st
      (Unload ⟨INVALID_HANDLE_VALUE⟩ ⟨[]⟩ ⟨[], [], [], ⟨0, 0, 0, 0⟩, "C:\\t", ⟨6, 3⟩, 0⟩).w :=
  (handle_state_invariant ⟨INVALID_HANDLE_VALUE⟩ ⟨[]⟩
    ⟨[], [], [], ⟨0, 0, 0, 0⟩, "C:\\t", ⟨6, 3⟩, 0⟩ "" (by decide)).1

/-- C6: default filename resolution is deterministic and total: for
every OS version exactly one of the four tier filenames is picked,
newest tier first (`BlackBoneDrv81.sys` for Windows 8.1 or greater,
`BlackBoneDrv8.sys` for Windows 8, `BlackBoneDrv7.sys` for Windows 7,
`BlackBoneDrv.sys` otherwise), and `Reload` with an empty path resolves
to that filename in the running executable's directory. -/
theorem default_path_resolution (v : OsVer) (exeDir : String) :
    (IsWindows8Point1OrGreater v = true → defaultDriverFile v = "BlackBoneDrv81.sys") ∧
    (IsWindows8Point1OrGreater v = false → IsWindows8OrGreater v = true →
      defaultDriverFile v = "BlackBoneDrv8.sys") ∧
    (IsWindows8OrGreater v = false → IsWindows7OrGreater v = true →
      defaultDriverFile v = "BlackBoneDrv7.sys") ∧
    (IsWindows7OrGreater v = false → defaultDriverFile v = "BlackBoneDrv.sys") ∧
    (IsWindows8Point1OrGreater v = true → IsWindows8OrGreater v = true) ∧
    (IsWindows8OrGreater v = true → IsWindows7OrGreater v = true) ∧
    defaultDriverFile v ∈
      ["BlackBoneDrv81.sys", "BlackBoneDrv8.sys", "BlackBoneDrv7.sys",
       "BlackBoneDrv.sys"] ∧
    resolveDriverPath exeDir v "" = exeDir ++ "\\" ++ defaultDriverFile v := by
  refine ⟨?_, ?_, ?_, ?_, ?_, ?_, ?_, ?_⟩
  · intro h; simp [defaultDriverFile, h]
  · intro h1 h2; simp [defaultDriverFile, h1, h2]
  · intro h1 h2
    have h3 : IsWindows8Point1OrGreater v = false := by
      simp [IsWindows8OrGreater, OsVer.atLeast] at h1
      simp [IsWindows8Point1OrGreater, OsVer.atLeast]
      omega
    simp [defaultDriverFile, h1, h2, h3]
  · intro h1
    have h2 : IsWindows8OrGreater v = false := by
      simp [IsWindows7OrGreater, OsVer.atLeast] at h1
      simp [IsWindows8OrGreater, OsVer.atLeast]
      omega
    have h3 : IsWindows8Point1OrGreater v = false := by
      simp [IsWindows7OrGreater, OsVer.atLeast] at h1
      simp [IsWindows8Point1OrGreater, OsVer.atLeast]
      omega
    simp [defaultDriverFile, h1, h2, h3]
  · intro h
    simp [IsWindows8Point1OrGreater, OsVer.atLeast] at h
    simp [IsWindows8OrGreater, OsVer.atLeast]
    omega
  · intro h
    simp [IsWindows8OrGreater, OsVer.atLeast] at h
    simp [IsWindows7OrGreater, OsVer.atLeast]
    omega
  · by_cases h81 : IsWindows8Point1OrGreater v = true <;>
      by_cases h8 : IsWindows8OrGreater v = true <;>
      by_cases h7 : IsWindows7OrGreater v = true <;>
      simp [defaultDriverFile, h81, h8, h7]
  · simp [resolveDriverPath]

/-- Witness for C6 at version 6.3 (Windows 8.1). -/
theorem default_path_resolution_witness :
    defaultDriverFile ⟨6, 3⟩ = "BlackBoneDrv81.sys" ∧
    resolveDriverPath "C:\\t" ⟨6, 3⟩ "" = "C:\\t" ++ "\\" ++ defaultDriverFile ⟨6, 3⟩ :=
  ⟨(default_path_resolution ⟨6, 3⟩ "C:\\t").1 (by decide),
   (default_path_resolution ⟨6, 3⟩ "C:\\t").2.2.2.2.2.2.2⟩

/-- C7: a successful `PrepareDriverRegEntry` writes exactly two values
under the fixed services key, keyed by the service name: the `ImagePath`
string value holding the path in NT-native syntax (`\??\` prefix) and
the `Type` numeric value 1; on any failing step the native failure code
is returned at once and values written by earlier steps are kept (no
rollback).  The source declares the type datum as `BYTE dwType = 1` and
passes it with `sizeof(DWORD)`; the embedding reads the declared value
1. -/
theorem prepareDriverRegEntry_two_values (svcName path : String) (env : RegEnv)
    (hfit : ("\\??\\" ++ path).length + 1 ≤ MAX_PATH) :
    (env.openKeyStatus ≠ 0 →
      PrepareDriverRegEntry svcName path env = some (env.openKeyStatus, [])) ∧
    (env.openKeyStatus = 0 → env.createKeyStatus ≠ 0 →
      PrepareDriverRegEntry svcName path env = some (env.createKeyStatus, [])) ∧
    (env.openKeyStatus = 0 → env.createKeyStatus = 0 → env.setImagePathStatus ≠ 0 →
      PrepareDriverRegEntry svcName path env = some (env.setImagePathStatus, [])) ∧
    (env.openKeyStatus = 0 → env.createKeyStatus = 0 → env.setImagePathStatus = 0 →
      env.setTypeStatus ≠ 0 →
      PrepareDriverRegEntry svcName path env = some (env.setTypeStatus,
        [⟨svcName, "ImagePath", RegValue.str ("\\??\\" ++ path)⟩])) ∧
    (env.openKeyStatus = 0 → env.createKeyStatus = 0 → env.setImagePathStatus = 0 →
      env.setTypeStatus = 0 →
      PrepareDriverRegEntry svcName path env = some (0,
        [⟨svcName, "ImagePath", RegValue.str ("\\??\\" ++ path)⟩,
         ⟨svcName, "Type", RegValue.dword 1⟩])) := by
  have hs : swprintf_s_path MAX_PATH ("\\??\\" ++ path) = some ("\\??\\" ++ path) := by
    unfold swprintf_s_path
    rw [if_pos hfit]
  refine ⟨?_, ?_, ?_, ?_, ?_⟩ <;> intros <;>
    simp_all [PrepareDriverRegEntry, hs]

/-- Witness for C7: the all-success path at a concrete service name and
path writes the two documented values. -/
theorem prepareDriverRegEntry_two_values_witness :
    PrepareDriverRegEntry "BlackBone" "C:\\d.sys" ⟨0, 0, 0, 0⟩ =
      some (0, [⟨"BlackBone", "ImagePath", RegValue.str ("\\??\\" ++ "C:\\d.sys")⟩,
                ⟨"BlackBone", "Type", RegValue.dword 1⟩]) :=
  (prepareDriverRegEntry_two_values "BlackBone" "C:\\d.sys" ⟨0, 0, 0, 0⟩
    (by decide)).2.2.2.2 rfl rfl rfl rfl

/-- C8 counterexample: encoding a 6-character module path into a
4-character `FullDllPath` field does not truncate it to capacity — the
`wcscpy_s` constraint handler fires and the call does not complete
(`none`), so the claim "a longer string is reduced to capacity rather
than overflowing the record or aborting the call" fails at this
input. -/
theorem injectDll_overlong_aborts :
    InjectDll 4 16 ⟨5⟩ 1 "abcdef" 0 0 "" false true ⟨[⟨true, 0, IoOut.nothing⟩], 3⟩ =
      none ∧
    wcscpy_s 4 "abcdef" = none := by
  decide

/-- Inversion of a successful `wcscpy_s`: the copied string is the
source, unchanged. -/
theorem wcscpy_s_eq_some (cap : Nat) (s t : String) (h : wcscpy_s cap s = some t) :
    t = s := by
  unfold wcscpy_s at h
  split at h
  · injection h with h; exact h.symm
  · exact absurd h (by simp)

/-- C8 (amended): every string field that reaches the request record is
copied unchanged (a string at or below capacity is encoded verbatim into
the `MapMemory` pipe name, the `InjectDll` module path and init
argument, and the `MMapDriver` driver path); a string above capacity is
not truncated: the secure-copy constraint handler is invoked and the
call does not complete. -/
theorem stringField_encode_roundtrip :
    (∀ cap (s : String), s.length + 1 ≤ cap → wcscpy_s cap s = some s) ∧
    (∀ cap (s : String), cap < s.length + 1 → wcscpy_s cap s = none) ∧
    (∀ pipeCap (st : DrvState) pid pipeName mapSections result ch out,
      MapMemory pipeCap st pid pipeName mapSections result ch = some out →
      ∀ c ∈ out.calls, c.req.pipeName = pipeName) ∧
    (∀ dllCap argCap (st : DrvState) pid path itype initRVA initArg unlink wait ch out,
      InjectDll dllCap argCap st pid path itype initRVA initArg unlink wait ch =
        some out →
      ∀ r ∈ out.sent, r.FullDllPath = path ∧ r.initArg = initArg) ∧
    (∀ pathCap (st : DrvState) path ch out,
      MMapDriver pathCap st path ch = some out →
      ∀ r ∈ out.sent, r.FullPath = ntPathOf path) := by
  refine ⟨?_, ?_, ?_, ?_, ?_⟩
  · intro cap s h; simp [wcscpy_s, h]
  · intro cap s h; simp [wcscpy_s]; omega
  · intro pipeCap st pid pipeName mapSections result ch out hout c hc
    simp only [MapMemory] at hout
    by_cases hld : st.hDriver = INVALID_HANDLE_VALUE
    · rw [if_pos hld] at hout
      injection hout with hout; subst hout
      simp at hc
    · rw [if_neg hld] at hout
      cases hw : wcscpy_s pipeCap pipeName with
      | none => rw [hw] at hout; exact absurd hout (by simp)
      | some pn =>
        have hpn : pn = pipeName := wcscpy_s_eq_some pipeCap pipeName pn hw
        rw [hw] at hout
        simp only at hout
        by_cases hcnd : ((ch.respAt 0).ok = true) ∧ (ch.respAt 0).bytes = 4
        · rw [if_pos hcnd] at hout
          by_cases h2 : (ch.respAt 1).ok = true
          · rw [if_pos h2] at hout
            injection hout with hout; subst hout
            simp only [List.mem_cons, List.not_mem_nil, or_false] at hc
            rcases hc with rfl | rfl <;> exact hpn
          · rw [if_neg h2] at hout
            injection hout with hout; subst hout
            simp only [List.mem_cons, List.not_mem_nil, or_false] at hc
            rcases hc with rfl | rfl <;> exact hpn
        · rw [if_neg hcnd] at hout
          injection hout with hout; subst hout
          simp only [List.mem_cons, List.not_mem_nil, or_false] at hc
          rcases hc with rfl
          exact hpn
  · intro dllCap argCap st pid path itype initRVA initArg unlink wait ch out hout r hr
    simp only [InjectDll] at hout
    by_cases hld : st.hDriver = INVALID_HANDLE_VALUE
    · rw [if_pos hld] at hout
      injection hout with hout; subst hout
      simp at hr
    · rw [if_neg hld] at hout
      cases hw1 : wcscpy_s dllCap path with
      | none => rw [hw1] at hout; exact absurd hout (by simp)
      | some p =>
        cases hw2 : wcscpy_s argCap initArg with
        | none => rw [hw1, hw2] at hout; exact absurd hout (by simp)
        | some a =>
          have hp : p = path := wcscpy_s_eq_some dllCap path p hw1
          have ha : a = initArg := wcscpy_s_eq_some argCap initArg a hw2
          rw [hw1, hw2] at hout
          simp only at hout
          by_cases hok : ((ch.respAt 0).ok = true)
          · rw [if_pos hok] at hout
            injection hout with hout; subst hout
            simp only [List.mem_cons, List.not_mem_nil, or_false] at hr
            rcases hr with rfl
            exact ⟨hp, ha⟩
          · rw [if_neg hok] at hout
            injection hout with hout; subst hout
            simp only [List.mem_cons, List.not_mem_nil, or_false] at hr
            rcases hr with rfl
            exact ⟨hp, ha⟩
  · intro pathCap st path ch out hout r hr
    simp only [MMapDriver] at hout
    by_cases hld : st.hDriver = INVALID_HANDLE_VALUE
    · rw [if_pos hld] at hout
      injection hout with hout; subst hout
      simp at hr
    · rw [if_neg hld] at hout
      cases hw : wcscpy_s pathCap (ntPathOf path) with
      | none => rw [hw] at hout; exact absurd hout (by simp)
      | some p =>
        have hp : p = ntPathOf path := wcscpy_s_eq_some pathCap (ntPathOf path) p hw
        rw [hw] at hout
        simp only at hout
        by_cases hok : ((ch.respAt 0).ok = true)
        · rw [if_pos hok] at hout
          injection hout with hout; subst hout
          simp only [List.mem_cons, List.not_mem_nil, or_false] at hr
          rcases hr with rfl
          exact hp
        · rw [if_neg hok] at hout
          injection hout with hout; subst hout
          simp only [List.mem_cons, List.not_mem_nil, or_false] at hr
          rcases hr with rfl
          exact hp

/-- Witness for C8's amended theorem: a fitting string is encoded
verbatim. -/
theorem stringField_encode_roundtrip_witness :
    wcscpy_s 8 "abc" = some "abc" :=
  stringField_encode_roundtrip.1 8 "abc" (by decide)

end blackbone
